import Mathlib

/-!
# Verification of the CBSE-render sequential scraper orchestrator

Shallow embedding of the repository's core logic:

* `app.py` — the web-layer orchestrator: the global `scraper_status`
  dictionary, `add_log`, `run_scraper_task`, and the `start_scraper` /
  `stop_scraper` handlers.
* `render_config.py` — configuration loading with per-key defaults
  (`_get_env_int`, the Render-branch of `_load_config`).
* `test_email_extraction.py` — the email extraction strategy chain
  (`extract_email_from_html`) together with a faithful model of the three
  Python regular expressions it searches with.

State that Python mutates in place is modelled by explicit state passing:
each handler / task function takes a `ScraperStatus` and returns the updated
one.  External, non-deterministic inputs (the wall clock, the outcome of
`processor.process_complete_state`, the concurrently-set stop flag, an
exception escaping the try-block) are parameters of the embedding.
-/

namespace CBSE

/-- The `scraper_status` global dictionary of `app.py` (lines 29–38).
`start_time` (a `datetime`) is modelled as an abstract `Option Nat`
timestamp; log entries are the formatted strings `add_log` builds. -/
structure ScraperStatus where
  running : Bool
  current_state : Option String
  progress : Nat
  total_states : Nat
  completed_states : List String
  failed_states : List String
  start_time : Option Nat
  logs : List String
deriving Repr, DecidableEq

/-- The initial value of `scraper_status` (app.py lines 29–38). -/
def initialStatus : ScraperStatus :=
  { running := false, current_state := none, progress := 0, total_states := 0,
    completed_states := [], failed_states := [], start_time := none, logs := [] }

/-- The log entry string `add_log` builds: `f"[{timestamp}] {message}"`.
The timestamp produced by `datetime.now().strftime(...)` is an external
input, passed in as `ts`. -/
def logEntry (ts msg : String) : String :=
  "[" ++ ts ++ "] " ++ msg

/-- `add_log` (app.py lines 40–48): append the formatted entry, then keep
only the last 100 entries (`logs[-100:]`). -/
def add_log (ts msg : String) (st : ScraperStatus) : ScraperStatus :=
  let logs1 := st.logs ++ [logEntry ts msg]
  { st with logs := if logs1.length > 100 then logs1.drop (logs1.length - 100) else logs1 }

/-- Result of the `start_scraper` handler: either the 400 rejection or a
successful start that spawns the background task with the given targets.
A background thread is spawned only on the `started` result. -/
inductive StartResult where
  | alreadyRunning
  | started (targets : Option (List String))
deriving Repr, DecidableEq

/-- `start_scraper` (app.py lines 109–134): reject when already running;
otherwise reset the status (note: `start_time` is *not* in the reset
`update` dict of lines 119–127) and spawn the background task. -/
def start_scraper (st : ScraperStatus) (targets : Option (List String)) :
    ScraperStatus × StartResult :=
  if st.running then
    (st, StartResult.alreadyRunning)
  else
    ({ st with
        running := true, current_state := none, progress := 0, total_states := 0,
        completed_states := [], failed_states := [], logs := [] },
     StartResult.started targets)

/-- `stop_scraper` (app.py lines 136–141): clear the running flag, then
unconditionally log the stop request. -/
def stop_scraper (ts : String) (st : ScraperStatus) : ScraperStatus :=
  add_log ts "🛑 Scraper stop requested" { st with running := false }

/-- Outcome of `processor.process_complete_state(state_name)` for one state:
it returns `True`, returns `False`, or raises an exception with message `m`.
The processor is an external collaborator, so the outcome is an input of the
embedding (a function from state name to outcome). -/
inductive Outcome where
  | success
  | failure
  | error (m : String)
deriving Repr, DecidableEq

/-- Whether the outcome is the `True` return (app.py line 77–78). -/
def isSuccess : Outcome → Bool
  | Outcome.success => true
  | _ => false

/-- Python truthiness of the `target_states` argument, as used both in
`if target_states:` (line 60) and `target_states or processor.states_list`
(line 68): `None` and the empty list are falsy. -/
def truthy : Option (List String) → Bool
  | some l => !l.isEmpty
  | none => false

/-- The body of one iteration of the `for i, state_name in enumerate(...)`
loop (app.py lines 72–86), after the stop check: set `current_state` and
`progress`, log the processing line, then run the processor and record the
state in `completed_states` or `failed_states` (an exception is caught and
recorded as a failure). -/
def stepState (ts : String) (outcome : String → Outcome) (i : Nat) (name : String)
    (st : ScraperStatus) : ScraperStatus :=
  let st1 := add_log ts
    ("🏛️ Processing state " ++ toString (i + 1) ++ "/" ++ toString st.total_states
      ++ ": " ++ name)
    { st with current_state := some name, progress := i }
  match outcome name with
  | Outcome.success =>
      add_log ts ("✅ Completed " ++ name)
        { st1 with completed_states := st1.completed_states ++ [name] }
  | Outcome.failure =>
      add_log ts ("❌ Failed " ++ name)
        { st1 with failed_states := st1.failed_states ++ [name] }
  | Outcome.error m =>
      add_log ts ("❌ Error processing " ++ name ++ ": " ++ m)
        { st1 with failed_states := st1.failed_states ++ [name] }

/-- The state loop of `run_scraper_task` (app.py lines 68–86).  The check
`if not scraper_status['running']: break` observes a flag that the
`stop_scraper` handler may clear concurrently; the observation made at
iteration `i` is abstracted as the oracle `stopAt i` (`true` when the flag
was observed cleared, i.e. the loop breaks). -/
def runLoop (ts : String) (outcome : String → Outcome) (stopAt : Nat → Bool) :
    Nat → List String → ScraperStatus → ScraperStatus
  | _, [], st => st
  | i, name :: rest, st =>
    if stopAt i then st
    else runLoop ts outcome stopAt (i + 1) rest (stepState ts outcome i name st)

/-- Number of loop iterations actually entered before the stop signal is
first observed (the states visited before the stop point). -/
def visitedCount (stopAt : Nat → Bool) : Nat → List String → Nat
  | _, [] => 0
  | i, _ :: rest => if stopAt i then 0 else visitedCount stopAt (i + 1) rest + 1

/-- The `try:` block of `run_scraper_task` (app.py lines 52–91), minus the
flag/timestamp writes done before it can fail.  `initError` models an
exception raised by `SequentialStateProcessor()` (the one statement in the
block, outside the per-state `try`, that calls an external collaborator);
the pair's second component is the exception that escaped, if any. -/
def run_body (ts : String) (outcome : String → Outcome) (stopAt : Nat → Bool)
    (initError : Option String) (targets : Option (List String))
    (states_list : List String) (st : ScraperStatus) : ScraperStatus × Option String :=
  let st1 := add_log ts "🚀 Starting school data scraper..." st
  match initError with
  | some m => (st1, some m)
  | none =>
    let names := if truthy targets then targets.getD [] else states_list
    let st2 :=
      if truthy targets then
        add_log ts ("📋 Processing " ++ toString names.length ++ " selected states")
          { st1 with total_states := names.length }
      else
        add_log ts ("📋 Processing all " ++ toString names.length ++ " states")
          { st1 with total_states := names.length }
    let st3 := runLoop ts outcome stopAt 0 names st2
    let st4 := add_log ts
      ("🎯 Scraping completed: " ++ toString st3.completed_states.length
        ++ " successful, " ++ toString st3.failed_states.length ++ " failed") st3
    (st4, none)

/-- `run_scraper_task` (app.py lines 50–97): set the running flag and
`start_time` (the wall-clock reading is the parameter `now`), run the body;
the `except` clause logs any escaped exception, and the `finally` clause
clears `running` and `current_state`. -/
def run_scraper_task (ts : String) (outcome : String → Outcome) (stopAt : Nat → Bool)
    (initError : Option String) (targets : Option (List String))
    (states_list : List String) (now : Nat) (st : ScraperStatus) : ScraperStatus :=
  let st0 := { st with running := true, start_time := some now }
  let r := run_body ts outcome stopAt initError targets states_list st0
  let st5 :=
    match r.2 with
    | some m => add_log ts ("❌ Scraper error: " ++ m) r.1
    | none => r.1
  { st5 with running := false, current_state := none }

/-! ## Configuration loading (`render_config.py`) -/

/-- A character Python's `str.strip()` removes (ASCII whitespace;
`str.isspace` unicode whitespace beyond these does not occur in the data). -/
def isPySpace (c : Char) : Bool :=
  c == ' ' || c == '\t' || c == '\n' || c == '\r' || c == '\x0b' || c == '\x0c'

/-- Python's `value.strip()`: drop leading and trailing whitespace. -/
def pyStrip (s : String) : String :=
  String.mk (((s.toList.dropWhile isPySpace).reverse.dropWhile isPySpace).reverse)

/-- Value of a decimal digit character. -/
def digitsVal (ds : List Char) : Nat :=
  ds.foldl (fun acc c => acc * 10 + (c.toNat - 48)) 0

/-- Model of Python's `int(value)` on a string: optional surrounding
whitespace, an optional sign, then a nonempty run of decimal digits;
anything else raises `ValueError` (`none`).  (Underscore digit grouping and
non-ASCII digits, which CPython also accepts, are not modelled; no
configuration value in the repository uses them.) -/
def pyInt (s : String) : Option Int :=
  match (pyStrip s).toList with
  | [] => none
  | '+' :: ds =>
      if ds ≠ [] ∧ ds.all Char.isDigit then some (Int.ofNat (digitsVal ds)) else none
  | '-' :: ds =>
      if ds ≠ [] ∧ ds.all Char.isDigit then some (-(Int.ofNat (digitsVal ds))) else none
  | ds =>
      if ds.all Char.isDigit then some (Int.ofNat (digitsVal ds)) else none

/-- `RenderConfigHandler._get_env_int` (render_config.py lines 129–138):
missing key → default; unparsable value → default (with a warning).
The process environment is the input `env`.  The default may itself be
`None` (used for `MAX_STATES`), hence `Option Int`. -/
def get_env_int (env : String → Option String) (key : String) (dflt : Option Int) :
    Option Int :=
  match env key with
  | none => dflt
  | some v =>
    match pyInt v with
    | some n => some n
    | none => dflt

/-- `RenderConfigHandler._get_env_bool` (render_config.py lines 140–145). -/
def get_env_bool (env : String → Option String) (key : String) (dflt : Bool) : Bool :=
  match env key with
  | none => dflt
  | some v =>
      v.toLower == "true" || v.toLower == "1" || v.toLower == "yes" || v.toLower == "on"

/-- The configuration dictionary built by `_load_config` on the Render
branch (render_config.py lines 46–66). -/
structure ConfigMap where
  MAX_STATES : Option Int
  MAX_DISTRICTS_PER_STATE : Option Int
  WAIT_BETWEEN_STATES : Option Int
  WAIT_BETWEEN_DISTRICTS : Option Int
  WAIT_AFTER_SEARCH : Option Int
  WAIT_FOR_PAGE_LOAD : Option Int
  OUTPUT_DIRECTORY : String
  BACKUP_FREQUENCY : Option Int
  IMPLICIT_WAIT : Option Int
  EXPLICIT_WAIT : Option Int
  PAGE_LOAD_TIMEOUT : Option Int
  BASE_URL : String
  LOG_LEVEL : String
  LOG_FORMAT : String
  MAX_RETRIES : Option Int
  RETRY_DELAY : Option Int
  HEADLESS : Bool
  WINDOW_SIZE : String
  RENDER_DEPLOYMENT : Bool
deriving Repr, DecidableEq

/-- `_load_config`, Render-deployment branch (render_config.py lines 44–67):
every key is read from the environment with a per-key default. -/
def load_config_render (env : String → Option String) : ConfigMap :=
  { MAX_STATES := get_env_int env "MAX_STATES" none
    MAX_DISTRICTS_PER_STATE := get_env_int env "MAX_DISTRICTS_PER_STATE" none
    WAIT_BETWEEN_STATES := get_env_int env "WAIT_BETWEEN_STATES" (some 3)
    WAIT_BETWEEN_DISTRICTS := get_env_int env "WAIT_BETWEEN_DISTRICTS" (some 2)
    WAIT_AFTER_SEARCH := get_env_int env "WAIT_AFTER_SEARCH" (some 5)
    WAIT_FOR_PAGE_LOAD := get_env_int env "WAIT_FOR_PAGE_LOAD" (some 3)
    OUTPUT_DIRECTORY := (env "OUTPUT_DIRECTORY").getD "output"
    BACKUP_FREQUENCY := get_env_int env "BACKUP_FREQUENCY" (some 100)
    IMPLICIT_WAIT := get_env_int env "IMPLICIT_WAIT" (some 10)
    EXPLICIT_WAIT := get_env_int env "EXPLICIT_WAIT" (some 10)
    PAGE_LOAD_TIMEOUT := get_env_int env "PAGE_LOAD_TIMEOUT" (some 30)
    BASE_URL := (env "BASE_URL").getD "https://udiseplus.gov.in/#/en/home"
    LOG_LEVEL := (env "LOG_LEVEL").getD "INFO"
    LOG_FORMAT := (env "LOG_FORMAT").getD "%(asctime)s - %(levelname)s - %(message)s"
    MAX_RETRIES := get_env_int env "MAX_RETRIES" (some 3)
    RETRY_DELAY := get_env_int env "RETRY_DELAY" (some 5)
    HEADLESS := get_env_bool env "HEADLESS" true
    WINDOW_SIZE := (env "WINDOW_SIZE").getD "1920,1080"
    RENDER_DEPLOYMENT := true }

/-! ## Email extraction (`test_email_extraction.py`, `extract_email_from_html`)

The three strategies are `re.search` calls.  We model the exact patterns
used by the code with a small continuation-passing backtracking matcher
over `List Char`, reproducing Python's leftmost-match, greedy-with-
backtracking semantics for the pattern constructs that occur
(literals, negated/char classes with `*`, `+` and `{2,}`, one capture
group, and the word-boundary assertion `\b`). -/

/-- Match the literal `l` as a prefix of `s`, then continue with `k` on the
remainder. -/
def litM {α : Type} : List Char → List Char → (List Char → Option α) → Option α
  | [], s, k => k s
  | _ :: _, [], _ => none
  | l :: ls, c :: cs, k => if c = l then litM ls cs k else none

/-- Greedy `cls*`: consume a maximal run of characters satisfying `p`,
backtracking to shorter runs (longest first) when the continuation fails. -/
def clsStar {α : Type} (p : Char → Bool) : List Char → (List Char → Option α) → Option α
  | [], k => k []
  | c :: cs, k =>
    if p c then Option.orElse (clsStar p cs k) (fun _ => k (c :: cs))
    else k (c :: cs)

/-- Consume exactly one character satisfying `p`. -/
def clsOne {α : Type} (p : Char → Bool) : List Char → (List Char → Option α) → Option α
  | [], _ => none
  | c :: cs, k => if p c then k cs else none

/-- Greedy `cls+`: one mandatory character, then a greedy star. -/
def clsPlus {α : Type} (p : Char → Bool) (s : List Char) (k : List Char → Option α) :
    Option α :=
  clsOne p s (fun s1 => clsStar p s1 k)

/-- The capture-group tail `([^t]+@[^t]+)` followed by the literal `endLit`
(whose first character is the excluded terminator `t`): since the group's
classes cannot cross `t`, the group is exactly the run of non-`t`
characters, and it matches iff that run contains `@` with at least one
character on each side, and `endLit` follows. -/
def groupTail (t : Char) (endLit : List Char) (s : List Char) : Option String :=
  let r := s.takeWhile (fun c => c != t)
  let rest := s.dropWhile (fun c => c != t)
  if (r.drop 1).dropLast.contains '@' then
    litM endLit rest (fun _ => some (String.mk r))
  else none

/-- Strategy 1's pattern, anchored at the current position:
`<span[^>]*class="[^"]*ms-2[^"]*"[^>]*>([^<]+@[^<]+)</span>`
(test_email_extraction.py line 91).  Returns group 1 on a match. -/
def matchSpanAt (s : List Char) : Option String :=
  litM ("<span".toList) s (fun s1 =>
  clsStar (fun c => c != '>') s1 (fun s2 =>
  litM ("class=\"".toList) s2 (fun s3 =>
  clsStar (fun c => c != '"') s3 (fun s4 =>
  litM ("ms-2".toList) s4 (fun s5 =>
  clsStar (fun c => c != '"') s5 (fun s6 =>
  litM ("\"".toList) s6 (fun s7 =>
  clsStar (fun c => c != '>') s7 (fun s8 =>
  litM (">".toList) s8 (fun s9 =>
  groupTail '<' ("</span>".toList) s9)))))))))

/-- `re.search` with strategy 1's pattern: try every start position,
leftmost first. -/
def searchSpan : List Char → Option String
  | [] => none
  | c :: cs => Option.orElse (matchSpanAt (c :: cs)) (fun _ => searchSpan cs)

/-- Strategy 2's pattern, anchored: `href="mailto:([^"]+@[^"]+)"`
(test_email_extraction.py line 96). -/
def matchMailtoAt (s : List Char) : Option String :=
  litM ("href=\"mailto:".toList) s (fun s1 => groupTail '"' ("\"".toList) s1)

/-- `re.search` with strategy 2's pattern. -/
def searchMailto : List Char → Option String
  | [] => none
  | c :: cs => Option.orElse (matchMailtoAt (c :: cs)) (fun _ => searchMailto cs)

/-- A regex word character (`\w`, which defines `\b`), ASCII range —
sufficient for the markup handled by the code. -/
def isWordChar (c : Char) : Bool :=
  c.isAlphanum || c == '_'

/-- Word-character test for the position before the search window
(`none` = start of string, a non-word context). -/
def isWordOpt : Option Char → Bool
  | none => false
  | some c => isWordChar c

/-- `\b` between an optional previous character and the current one. -/
def boundaryB (prev : Option Char) (c : Char) : Bool :=
  isWordOpt prev != isWordChar c

/-- The local-part class `[A-Za-z0-9._%+-]` of strategy 3's pattern. -/
def localCls (c : Char) : Bool :=
  c.isAlphanum || c == '.' || c == '_' || c == '%' || c == '+' || c == '-'

/-- The domain class `[A-Za-z0-9.-]`. -/
def domCls (c : Char) : Bool :=
  c.isAlphanum || c == '.' || c == '-'

/-- The TLD class `[A-Z|a-z]` — note the literal `|` inside the class. -/
def tldCls (c : Char) : Bool :=
  c.isAlpha || c == '|'

/-- Greedy continuation of `[A-Z|a-z]{2,}\b` after the two mandatory
class characters: consume more class characters (longest first), then
require a word boundary after the last consumed character `lastc`. -/
def tldTail (lastc : Char) : List Char → Option (List Char)
  | [] => if isWordChar lastc then some [] else none
  | c :: cs =>
    if tldCls c then
      Option.orElse (tldTail c cs)
        (fun _ => if isWordChar lastc != isWordChar c then some (c :: cs) else none)
    else
      if isWordChar lastc != isWordChar c then some (c :: cs) else none

/-- The tail `\.[A-Z|a-z]{2,}\b` of strategy 3's pattern, after the dot:
two mandatory class characters, then the greedy star with the final
boundary. -/
def tldPart : List Char → Option (List Char)
  | c1 :: c2 :: rest => if tldCls c1 && tldCls c2 then tldTail c2 rest else none
  | _ => none

/-- Strategy 3's pattern, anchored at the current position (with `prev` the
character before it, for `\b`):
`\b[A-Za-z0-9._%+-]+@[A-Za-z0-9.-]+\.[A-Z|a-z]{2,}\b`
(test_email_extraction.py line 101).  Returns the remainder after the match
(the match itself, group 0, is recovered from the consumed length). -/
def matchEmailAt (prev : Option Char) (s : List Char) : Option (List Char) :=
  match s with
  | [] => none
  | c0 :: _ =>
    if boundaryB prev c0 then
      clsPlus localCls s (fun s1 =>
      litM ("@".toList) s1 (fun s2 =>
      clsPlus domCls s2 (fun s3 =>
      litM (".".toList) s3 (fun s4 =>
      tldPart s4))))
    else none

/-- `re.search` with strategy 3's pattern over the flattened text, tracking
the previous character for the leading `\b`. -/
def searchEmail (prev : Option Char) : List Char → Option String
  | [] => none
  | c :: cs =>
    match matchEmailAt prev (c :: cs) with
    | some rest => some (String.mk ((c :: cs).take ((c :: cs).length - rest.length)))
    | none => searchEmail (some c) cs

/-- Strategy 1 as used by the code: `re.search(span-pattern, element_html)`,
returning group 1. -/
def email_span_match (html : String) : Option String := searchSpan html.toList

/-- Strategy 2: `re.search(mailto-pattern, element_html)`, group 1. -/
def mailto_match (html : String) : Option String := searchMailto html.toList

/-- Strategy 3: `re.search(email-pattern, element_text)`, group 0. -/
def email_text_match (text : String) : Option String := searchEmail none text.toList

/-- `extract_email_from_html(element_html, element_text)`
(test_email_extraction.py lines 86–105): the three-strategy fallback chain
with the `"N/A"` sentinel; each matched value is `.strip()`-ped. -/
def extract_email_from_html (element_html element_text : String) : String :=
  match email_span_match element_html with
  | some v => pyStrip v
  | none =>
    match mailto_match element_html with
    | some v => pyStrip v
    | none =>
      match email_text_match element_text with
      | some v => pyStrip v
      | none => "N/A"

/-! ## Concrete instances used to exercise the definitions -/

/-- A sequence of log-append calls (timestamp, message), folded over the
status as repeated `add_log` invocations. -/
def applyLogs (msgs : List (String × String)) (st : ScraperStatus) : ScraperStatus :=
  msgs.foldl (fun st p => add_log p.1 p.2 st) st

/-- A status in the middle of a run. -/
def runningStatus : ScraperStatus :=
  { initialStatus with
      running := true, current_state := some "KERALA", progress := 2, total_states := 5,
      completed_states := ["GOA", "BIHAR"], failed_states := ["ASSAM"],
      start_time := some 42, logs := ["[t0] 🚀 Starting school data scraper..."] }

/-- A stopped status left over from a previous run. -/
def previousRunStatus : ScraperStatus :=
  { initialStatus with
      completed_states := ["GOA"], failed_states := ["BIHAR"], progress := 1,
      total_states := 2, start_time := some 42, logs := ["[t0] old entry"] }

/-- A processor behaviour: state "B" raises, the others succeed. -/
def outcomeABC : String → Outcome :=
  fun n => if n = "B" then Outcome.error "boom" else Outcome.success

/-- A stop oracle that observes the stop signal from iteration 2 on. -/
def stopFrom2 : Nat → Bool := fun j => decide (2 ≤ j)

/-- Markup holding both a marker-class span (inner text `z@w.com`) and a
mailto target with a different address (`x@y.com`). -/
def spanAndMailtoHtml : String :=
  "<a href=\"mailto:x@y.com\"><span class=\"ms-2\">z@w.com</span></a>"

/-- Markup holding only a bare mailto target. -/
def mailtoOnlyHtml : String :=
  "<a href=\"mailto:school.contact@education.gov.in\">Contact Email</a>"

/-- Markup with no span and no mailto; its flattened text holds a plain
email-shaped substring. -/
def plainHtml : String := "<p>Contact: principal@schoolname.edu.in</p>"

/-- Flattened text of `plainHtml`. -/
def plainText : String := "Contact: principal@schoolname.edu.in PIN Code: 789012"

/-- Markup and text with no email in any form. -/
def noEmailHtml : String := "<p>School Name: Test School</p>"

/-- Flattened text of `noEmailHtml`. -/
def noEmailText : String := "School Name: Test School PIN Code: 345678"

/-- A marker-class span that is enclosed in no anchor at all (no `<a`, no
`mailto:` anywhere in the markup). -/
def spanNoAnchorHtml : String := "<span class=\"ms-2\">a@b.cd</span>"

/-- An environment with no variables set. -/
def emptyEnv : String → Option String := fun _ => none

/-- An environment in which every variable carries a non-integer value. -/
def badIntEnv : String → Option String := fun _ => some "not-a-number"

/-! ## Basic lemmas about the status operations -/

theorem add_log_completed_states (ts m : String) (st : ScraperStatus) :
    (add_log ts m st).completed_states = st.completed_states := rfl

theorem add_log_failed_states (ts m : String) (st : ScraperStatus) :
    (add_log ts m st).failed_states = st.failed_states := rfl

theorem add_log_running (ts m : String) (st : ScraperStatus) :
    (add_log ts m st).running = st.running := rfl

theorem add_log_start_time (ts m : String) (st : ScraperStatus) :
    (add_log ts m st).start_time = st.start_time := rfl

theorem add_log_current_state (ts m : String) (st : ScraperStatus) :
    (add_log ts m st).current_state = st.current_state := rfl

theorem add_log_progress (ts m : String) (st : ScraperStatus) :
    (add_log ts m st).progress = st.progress := rfl

theorem add_log_total_states (ts m : String) (st : ScraperStatus) :
    (add_log ts m st).total_states = st.total_states := rfl

/-- The log after `add_log`, in closed form: append the entry, then keep
the last (at most) 100 entries.  (`Nat` subtraction makes the `drop` a
no-op when the bound is not exceeded.) -/
theorem add_log_logs (ts m : String) (st : ScraperStatus) :
    (add_log ts m st).logs
      = (st.logs ++ [logEntry ts m]).drop ((st.logs.length + 1) - 100) := by
  have hlogs : (add_log ts m st).logs =
      (if (st.logs ++ [logEntry ts m]).length > 100
       then (st.logs ++ [logEntry ts m]).drop ((st.logs ++ [logEntry ts m]).length - 100)
       else st.logs ++ [logEntry ts m]) := rfl
  rw [hlogs]
  by_cases h : (st.logs ++ [logEntry ts m]).length > 100
  · rw [if_pos h]
    congr 1
    simp
  · rw [if_neg h]
    simp only [List.length_append, List.length_cons, List.length_nil] at h
    have h2 : st.logs.length + 1 - 100 = 0 := by omega
    rw [h2, List.drop_zero]

theorem add_log_logs_length (ts m : String) (st : ScraperStatus) :
    (add_log ts m st).logs.length = (st.logs.length + 1) - ((st.logs.length + 1) - 100) := by
  rw [add_log_logs, List.length_drop, List.length_append]
  simp

/-- The just-appended entry is always the last element of the log. -/
theorem add_log_logs_getLast? (ts m : String) (st : ScraperStatus) :
    (add_log ts m st).logs.getLast? = some (logEntry ts m) := by
  rw [add_log_logs]
  have hlt : (st.logs.length + 1) - 100 < (st.logs ++ [logEntry ts m]).length := by
    simp only [List.length_append, List.length_cons, List.length_nil]
    omega
  rw [List.getLast?_eq_getElem?, List.length_drop, List.getElem?_drop]
  have harith : st.logs.length + 1 - 100 +
      ((st.logs ++ [logEntry ts m]).length - (st.logs.length + 1 - 100) - 1)
      = (st.logs ++ [logEntry ts m]).length - 1 := by
    simp only [List.length_append, List.length_cons, List.length_nil]
    omega
  rw [harith, ← List.getLast?_eq_getElem?, List.getLast?_concat]

/-! ## Lemmas about the state loop -/

theorem stepState_completed_states (ts : String) (outcome : String → Outcome)
    (i : Nat) (name : String) (st : ScraperStatus) :
    (stepState ts outcome i name st).completed_states =
      if isSuccess (outcome name) then st.completed_states ++ [name]
      else st.completed_states := by
  unfold stepState
  cases h : outcome name <;> simp [isSuccess, h, add_log_completed_states]

theorem stepState_failed_states (ts : String) (outcome : String → Outcome)
    (i : Nat) (name : String) (st : ScraperStatus) :
    (stepState ts outcome i name st).failed_states =
      if isSuccess (outcome name) then st.failed_states
      else st.failed_states ++ [name] := by
  unfold stepState
  cases h : outcome name <;> simp [isSuccess, h, add_log_failed_states]

theorem stepState_running (ts : String) (outcome : String → Outcome)
    (i : Nat) (name : String) (st : ScraperStatus) :
    (stepState ts outcome i name st).running = st.running := by
  unfold stepState
  cases h : outcome name <;> simp [h, add_log_running]

theorem stepState_start_time (ts : String) (outcome : String → Outcome)
    (i : Nat) (name : String) (st : ScraperStatus) :
    (stepState ts outcome i name st).start_time = st.start_time := by
  unfold stepState
  cases h : outcome name <;> simp [h, add_log_start_time]

theorem stepState_total_states (ts : String) (outcome : String → Outcome)
    (i : Nat) (name : String) (st : ScraperStatus) :
    (stepState ts outcome i name st).total_states = st.total_states := by
  unfold stepState
  cases h : outcome name <;> simp [h, add_log_total_states]

/-- Full characterisation of the state loop: the states visited are the
prefix before the first observed stop signal; successful visits append to
`completed_states`, failed ones (returned `False` or raised) append to
`failed_states`; the loop touches neither the running flag, nor
`start_time`, nor `total_states`. -/
theorem runLoop_spec (ts : String) (outcome : String → Outcome) (stopAt : Nat → Bool) :
    ∀ (states : List String) (i : Nat) (st : ScraperStatus),
    (runLoop ts outcome stopAt i states st).completed_states
      = st.completed_states
        ++ (states.take (visitedCount stopAt i states)).filter
             (fun n => isSuccess (outcome n)) ∧
    (runLoop ts outcome stopAt i states st).failed_states
      = st.failed_states
        ++ (states.take (visitedCount stopAt i states)).filter
             (fun n => !(isSuccess (outcome n))) ∧
    (runLoop ts outcome stopAt i states st).running = st.running ∧
    (runLoop ts outcome stopAt i states st).start_time = st.start_time ∧
    (runLoop ts outcome stopAt i states st).total_states = st.total_states := by
  intro states
  induction states with
  | nil => intro i st; simp [runLoop, visitedCount]
  | cons name rest ih =>
    intro i st
    by_cases h : stopAt i
    · simp [runLoop, visitedCount, h]
    · have h' : stopAt i = false := by simpa using h
      obtain ⟨hc, hf, hr, hs, ht⟩ := ih (i + 1) (stepState ts outcome i name st)
      rw [show runLoop ts outcome stopAt i (name :: rest) st
            = runLoop ts outcome stopAt (i + 1) rest (stepState ts outcome i name st) by
          simp [runLoop, h'],
        show visitedCount stopAt i (name :: rest)
            = visitedCount stopAt (i + 1) rest + 1 by simp [visitedCount, h']]
      refine ⟨?_, ?_, ?_, ?_, ?_⟩
      · rw [hc, stepState_completed_states, List.take_succ_cons, List.filter_cons]
        by_cases hS : isSuccess (outcome name) <;> simp [hS]
      · rw [hf, stepState_failed_states, List.take_succ_cons, List.filter_cons]
        by_cases hS : isSuccess (outcome name) <;> simp [hS]
      · rw [hr, stepState_running]
      · rw [hs, stepState_start_time]
      · rw [ht, stepState_total_states]

/-- If the stop signal is never observed, every state is visited. -/
theorem visitedCount_all_false (stopAt : Nat → Bool) (hstop : ∀ j, stopAt j = false) :
    ∀ (states : List String) (i : Nat), visitedCount stopAt i states = states.length := by
  intro states
  induction states with
  | nil => intro i; simp [visitedCount]
  | cons name rest ih => intro i; simp [visitedCount, hstop i, ih (i + 1)]

/-- The background task always records its wall-clock start in
`start_time`, whatever else happens during the run. -/
theorem run_scraper_task_start_time (ts : String) (outcome : String → Outcome)
    (stopAt : Nat → Bool) (initError : Option String) (targets : Option (List String))
    (states_list : List String) (now : Nat) (st : ScraperStatus) :
    (run_scraper_task ts outcome stopAt initError targets states_list now st).start_time
      = some now := by
  unfold run_scraper_task run_body
  cases initError with
  | some m => simp [add_log_start_time]
  | none =>
    by_cases h : truthy targets <;>
      simp [h, add_log_start_time,
        (runLoop_spec ts outcome stopAt _ 0 _).2.2.2.1]

/-! ## Claim theorems -/

/-- C2: calling `start` while a run is already in the `Running` state is
rejected with an already-running error and causes no state mutation —
the status is returned unchanged and no background run is spawned (a
thread is only spawned on the `started` result). -/
theorem C2_start_while_running_rejected (st : ScraperStatus)
    (targets : Option (List String)) (h : st.running = true) :
    start_scraper st targets = (st, StartResult.alreadyRunning) := by
  simp [start_scraper, h]

theorem C2_witness :
    runningStatus.running = true ∧
    start_scraper runningStatus (some ["KERALA"])
      = (runningStatus, StartResult.alreadyRunning) :=
  ⟨rfl, C2_start_while_running_rejected runningStatus (some ["KERALA"]) rfl⟩

/-- C4 counterexample: the claim says a `stop()` call on a non-running
status leaves every field, including the log buffer, unchanged; but
`stop_scraper` unconditionally appends a "stop requested" log entry
(app.py line 140), so even on the pristine initial status the call is not
a no-op. -/
theorem C4_counterexample :
    initialStatus.running = false ∧
    (stop_scraper "2025-10-12 00:00:00" initialStatus).logs ≠ initialStatus.logs ∧
    stop_scraper "2025-10-12 00:00:00" initialStatus ≠ initialStatus := by
  refine ⟨rfl, ?_, ?_⟩ <;> decide

/-- C4 (amended): calling `stop()` when no run is in progress leaves every
field of the status except the log buffer unchanged (in particular
`running` stays `false`); the log buffer always gains a "stop requested"
entry as its most recent element, so repeated calls differ only in the
log. -/
theorem C4_stop_when_idle_mutates_only_log (ts : String) (st : ScraperStatus)
    (h : st.running = false) :
    (stop_scraper ts st).running = st.running ∧
    (stop_scraper ts st).current_state = st.current_state ∧
    (stop_scraper ts st).progress = st.progress ∧
    (stop_scraper ts st).total_states = st.total_states ∧
    (stop_scraper ts st).completed_states = st.completed_states ∧
    (stop_scraper ts st).failed_states = st.failed_states ∧
    (stop_scraper ts st).start_time = st.start_time ∧
    (stop_scraper ts st).logs.getLast? = some (logEntry ts "🛑 Scraper stop requested") := by
  refine ⟨?_, rfl, rfl, rfl, rfl, rfl, rfl, ?_⟩
  · simp [stop_scraper, add_log_running, h]
  · exact add_log_logs_getLast? ts _ _

theorem C4_witness :
    previousRunStatus.running = false ∧
    (stop_scraper "t1" previousRunStatus).completed_states
      = previousRunStatus.completed_states ∧
    (stop_scraper "t1" previousRunStatus).start_time = previousRunStatus.start_time ∧
    (stop_scraper "t1" previousRunStatus).logs.getLast?
      = some (logEntry "t1" "🛑 Scraper stop requested") := by
  have h := C4_stop_when_idle_mutates_only_log "t1" previousRunStatus rfl
  exact ⟨rfl, h.2.2.2.2.1, h.2.2.2.2.2.2.1, h.2.2.2.2.2.2.2⟩

/-- C7: when an unexpected exception escapes the state loop inside the
task's `try` block (modelled at the `SequentialStateProcessor()` call, the
statement in the block that invokes an external collaborator outside the
per-state `try`), the outermost handler logs it, the `finally` clause
leaves the run in a consistent terminal state — `running = false`,
`current_state = none` — and the completed/failed lists accumulated before
the failure are preserved.  The task is a total function, so the hosting
process never crashes. -/
theorem C7_job_level_exception_contained (ts : String) (outcome : String → Outcome)
    (stopAt : Nat → Bool) (initError : Option String) (targets : Option (List String))
    (states_list : List String) (now : Nat) (st : ScraperStatus) (m : String)
    (h : initError = some m) :
    (run_scraper_task ts outcome stopAt initError targets states_list now st).running
      = false ∧
    (run_scraper_task ts outcome stopAt initError targets states_list now st).current_state
      = none ∧
    (run_scraper_task ts outcome stopAt initError targets states_list now st).completed_states
      = st.completed_states ∧
    (run_scraper_task ts outcome stopAt initError targets states_list now st).failed_states
      = st.failed_states ∧
    (run_scraper_task ts outcome stopAt initError targets states_list now st).logs.getLast?
      = some (logEntry ts ("❌ Scraper error: " ++ m)) := by
  subst h
  unfold run_scraper_task run_body
  exact ⟨rfl, rfl, rfl, rfl, add_log_logs_getLast? ts _ _⟩

theorem C7_witness :
    (run_scraper_task "t2" outcomeABC (fun _ => false) (some "AttributeError") none
        ["A", "B"] 7 runningStatus).running = false ∧
    (run_scraper_task "t2" outcomeABC (fun _ => false) (some "AttributeError") none
        ["A", "B"] 7 runningStatus).current_state = none ∧
    (run_scraper_task "t2" outcomeABC (fun _ => false) (some "AttributeError") none
        ["A", "B"] 7 runningStatus).completed_states = runningStatus.completed_states ∧
    (run_scraper_task "t2" outcomeABC (fun _ => false) (some "AttributeError") none
        ["A", "B"] 7 runningStatus).failed_states = runningStatus.failed_states ∧
    (run_scraper_task "t2" outcomeABC (fun _ => false) (some "AttributeError") none
        ["A", "B"] 7 runningStatus).logs.getLast?
      = some (logEntry "t2" ("❌ Scraper error: " ++ "AttributeError")) :=
  C7_job_level_exception_contained "t2" outcomeABC (fun _ => false)
    (some "AttributeError") none ["A", "B"] 7 runningStatus "AttributeError" rfl

/-- C8: the log is a bounded ring buffer of capacity 100 — starting from
any status respecting the bound, any sequence of `add_log` calls keeps at
most 100 entries, the surviving entries are exactly the most recent
suffix of everything ever appended, and once the bound has been reached
the length is exactly 100. -/
theorem C8_log_ring_buffer (msgs : List (String × String)) :
    ∀ st : ScraperStatus, st.logs.length ≤ 100 →
    (applyLogs msgs st).logs.length ≤ 100 ∧
    (applyLogs msgs st).logs
      = (st.logs ++ msgs.map (fun p => logEntry p.1 p.2)).drop
          ((st.logs.length + msgs.length) - 100) ∧
    (100 ≤ st.logs.length + msgs.length → (applyLogs msgs st).logs.length = 100) := by
  induction msgs with
  | nil =>
    intro st h
    refine ⟨h, ?_, fun h100 => ?_⟩
    · simp [applyLogs, Nat.sub_eq_zero_of_le h]
    · simp only [List.length_nil, Nat.add_zero] at h100
      simp [applyLogs]
      omega
  | cons p ms ih =>
    intro st h
    have hstep : applyLogs (p :: ms) st = applyLogs ms (add_log p.1 p.2 st) := rfl
    have hK := add_log_logs_length p.1 p.2 st
    have hlen : (add_log p.1 p.2 st).logs.length ≤ 100 := by omega
    obtain ⟨h1, h2, h3⟩ := ih (add_log p.1 p.2 st) hlen
    rw [hstep]
    refine ⟨h1, ?_, fun h100 => ?_⟩
    · rw [h2, hK, add_log_logs,
        ← List.drop_append_of_le_length
          (show st.logs.length + 1 - 100 ≤ (st.logs ++ [logEntry p.1 p.2]).length by
            simp only [List.length_append, List.length_cons, List.length_nil]; omega),
        List.drop_drop, List.append_assoc, List.singleton_append]
      congr 1
      simp only [List.length_map, List.length_cons]
      omega
    · apply h3
      simp only [List.length_cons] at h100
      omega

theorem C8_witness :
    initialStatus.logs.length ≤ 100 ∧
    (applyLogs (List.replicate 101 ("t", "m")) initialStatus).logs.length = 100 := by
  refine ⟨by decide, ?_⟩
  exact (C8_log_ring_buffer (List.replicate 101 ("t", "m")) initialStatus
    (by decide)).2.2 (by simp)

/-- C10 (implicit): an accepted `start()` clears `completed_states`,
`failed_states`, `logs`, `progress`, `total_states` and `current_state`,
but — because `start_time` is absent from the reset dict (app.py lines
119–127) — leaves `start_time` at its stale previous value; only the
background task later assigns it (to its own wall-clock reading `now`).
A status snapshot taken after `start()` returns and before the task's
first step is exactly `(start_scraper st targets).1`: stale `start_time`
next to freshly emptied lists. -/
theorem C10_reset_keeps_stale_start_time (st : ScraperStatus)
    (targets : Option (List String)) (h : st.running = false) :
    ((start_scraper st targets).1.start_time = st.start_time ∧
     (start_scraper st targets).1.completed_states = [] ∧
     (start_scraper st targets).1.failed_states = [] ∧
     (start_scraper st targets).1.logs = [] ∧
     (start_scraper st targets).1.progress = 0 ∧
     (start_scraper st targets).1.total_states = 0 ∧
     (start_scraper st targets).1.current_state = none ∧
     (start_scraper st targets).1.running = true) ∧
    ∀ (ts : String) (outcome : String → Outcome) (stopAt : Nat → Bool)
      (initError : Option String) (states_list : List String) (now : Nat),
      (run_scraper_task ts outcome stopAt initError targets states_list now
          (start_scraper st targets).1).start_time = some now := by
  constructor
  · simp [start_scraper, h]
  · intro ts outcome stopAt initError states_list now
    exact run_scraper_task_start_time ts outcome stopAt initError targets states_list now _

theorem C10_witness :
    previousRunStatus.running = false ∧
    (start_scraper previousRunStatus none).1.start_time = some 42 ∧
    (start_scraper previousRunStatus none).1.completed_states = [] ∧
    (start_scraper previousRunStatus none).1.logs = [] ∧
    (run_scraper_task "t3" outcomeABC (fun _ => false) none none ["A"] 7
        (start_scraper previousRunStatus none).1).start_time = some 7 := by
  have h := C10_reset_keeps_stale_start_time previousRunStatus none rfl
  refine ⟨rfl, ?_, h.1.2.1, h.1.2.2.2.1, h.2 "t3" outcomeABC (fun _ => false) none ["A"] 7⟩
  rw [h.1.1]; rfl

/-- C3: per-region isolation.  When a state's processing is reached (no
stop observed), the loop performs one step and *continues with the rest of
the list*; a step whose processing raised or returned `False` appends the
state to `failed_states` (leaving `completed_states` alone), a successful
step appends it to `completed_states`; and over a whole run with no stop
signal, every state is visited and ends up in exactly the list its outcome
dictates — no failure terminates the run. -/
theorem C3_per_region_isolation (ts : String) (outcome : String → Outcome)
    (stopAt : Nat → Bool) (i : Nat) (name : String) (rest : List String)
    (st : ScraperStatus) (h : stopAt i = false) :
    runLoop ts outcome stopAt i (name :: rest) st
      = runLoop ts outcome stopAt (i + 1) rest (stepState ts outcome i name st) ∧
    (isSuccess (outcome name) = false →
      (stepState ts outcome i name st).failed_states = st.failed_states ++ [name] ∧
      (stepState ts outcome i name st).completed_states = st.completed_states) ∧
    (isSuccess (outcome name) = true →
      (stepState ts outcome i name st).completed_states = st.completed_states ++ [name] ∧
      (stepState ts outcome i name st).failed_states = st.failed_states) ∧
    ((∀ j, stopAt j = false) →
      (runLoop ts outcome stopAt i (name :: rest) st).completed_states
        = st.completed_states ++ (name :: rest).filter (fun n => isSuccess (outcome n)) ∧
      (runLoop ts outcome stopAt i (name :: rest) st).failed_states
        = st.failed_states ++ (name :: rest).filter (fun n => !(isSuccess (outcome n)))) := by
  refine ⟨by simp [runLoop, h], fun hS => ?_, fun hS => ?_, fun hstop => ?_⟩
  · rw [stepState_failed_states, stepState_completed_states, hS]
    simp
  · rw [stepState_failed_states, stepState_completed_states, hS]
    simp
  · obtain ⟨hc, hf, -, -, -⟩ := runLoop_spec ts outcome stopAt (name :: rest) i st
    rw [visitedCount_all_false stopAt hstop (name :: rest) i, List.take_length] at hc hf
    exact ⟨hc, hf⟩

theorem C3_witness :
    (runLoop "t4" outcomeABC (fun _ => false) 0 ["A", "B", "C"] initialStatus).completed_states
      = ["A", "C"] ∧
    (runLoop "t4" outcomeABC (fun _ => false) 0 ["A", "B", "C"] initialStatus).failed_states
      = ["B"] ∧
    (stepState "t4" outcomeABC 1 "B" initialStatus).failed_states = ["B"] ∧
    (stepState "t4" outcomeABC 0 "A" initialStatus).completed_states = ["A"] := by
  have hAll := (C3_per_region_isolation "t4" outcomeABC (fun _ => false) 0 "A" ["B", "C"]
    initialStatus rfl).2.2.2 (fun _ => rfl)
  have hB := (C3_per_region_isolation "t4" outcomeABC (fun _ => false) 1 "B" []
    initialStatus rfl).2.1 (by decide)
  have hA := (C3_per_region_isolation "t4" outcomeABC (fun _ => false) 0 "A" []
    initialStatus rfl).2.2.1 (by decide)
  refine ⟨?_, ?_, ?_, ?_⟩
  · rw [hAll.1]; decide
  · rw [hAll.2]; decide
  · rw [hB.1]; rfl
  · rw [hA.1]; rfl

/-- C5: cooperative stop at a region boundary.  The loop exits as soon as
the stop signal is observed (an iteration whose check observes it
processes nothing), and the states recorded in `completed_states` or
`failed_states` during the run are exactly (hence at most) the states
visited before the stop point: nothing past the stop point is ever added
to either list. -/
theorem C5_stop_region_boundary (ts : String) (outcome : String → Outcome)
    (stopAt : Nat → Bool) (states : List String) (i : Nat) (st : ScraperStatus) :
    (runLoop ts outcome stopAt i states st).completed_states
      = st.completed_states
        ++ (states.take (visitedCount stopAt i states)).filter
             (fun n => isSuccess (outcome n)) ∧
    (runLoop ts outcome stopAt i states st).failed_states
      = st.failed_states
        ++ (states.take (visitedCount stopAt i states)).filter
             (fun n => !(isSuccess (outcome n))) ∧
    (∀ (name : String) (rest : List String), stopAt i = true →
      runLoop ts outcome stopAt i (name :: rest) st = st) ∧
    (∀ name : String,
      name ∈ (runLoop ts outcome stopAt i states st).completed_states ∨
      name ∈ (runLoop ts outcome stopAt i states st).failed_states →
      name ∈ st.completed_states ∨ name ∈ st.failed_states ∨
      name ∈ states.take (visitedCount stopAt i states)) := by
  obtain ⟨hc, hf, -, -, -⟩ := runLoop_spec ts outcome stopAt states i st
  refine ⟨hc, hf, fun name rest h => by simp [runLoop, h], fun name hmem => ?_⟩
  rcases hmem with hmem | hmem
  · rw [hc] at hmem
    rcases List.mem_append.mp hmem with h1 | h1
    · exact Or.inl h1
    · exact Or.inr (Or.inr (List.mem_of_mem_filter h1))
  · rw [hf] at hmem
    rcases List.mem_append.mp hmem with h1 | h1
    · exact Or.inr (Or.inl h1)
    · exact Or.inr (Or.inr (List.mem_of_mem_filter h1))

theorem C5_witness :
    (runLoop "t5" outcomeABC stopFrom2 0 ["A", "B", "C"] initialStatus).completed_states
      = ["A"] ∧
    (runLoop "t5" outcomeABC stopFrom2 0 ["A", "B", "C"] initialStatus).failed_states
      = ["B"] ∧
    runLoop "t5" outcomeABC stopFrom2 2 ["C"] initialStatus = initialStatus ∧
    ("A" ∈ initialStatus.completed_states ∨ "A" ∈ initialStatus.failed_states ∨
      "A" ∈ (["A", "B", "C"].take (visitedCount stopFrom2 0 ["A", "B", "C"]))) := by
  have h := C5_stop_region_boundary "t5" outcomeABC stopFrom2 ["A", "B", "C"] 0 initialStatus
  refine ⟨?_, ?_, ?_, ?_⟩
  · rw [h.1]; decide
  · rw [h.2.1]; decide
  · exact (C5_stop_region_boundary "t5" outcomeABC stopFrom2 ["C"] 2 initialStatus).2.2.1
      "C" [] rfl
  · exact h.2.2.2 "A" (Or.inl (by rw [h.1]; decide))

/-- C1: the contact/email field applies the three strategies in fixed
precedence.  If the marker-class span pattern matches (even when a bare
mailto target with a different address is also present), the result is the
span's inner text, stripped; with no span match but a mailto match, the
result is the mailto address portion, stripped; with neither, a match of
the email shape in the flattened text is returned; with none, the result
is exactly the sentinel `"N/A"`. -/
theorem C1_email_strategy_precedence (html text : String) :
    (∀ a b, email_span_match html = some a → mailto_match html = some b → a ≠ b →
      extract_email_from_html html text = pyStrip a) ∧
    (email_span_match html = none → ∀ b, mailto_match html = some b →
      extract_email_from_html html text = pyStrip b) ∧
    (email_span_match html = none → mailto_match html = none →
      ∀ c, email_text_match text = some c →
      extract_email_from_html html text = pyStrip c) ∧
    (email_span_match html = none → mailto_match html = none →
      email_text_match text = none → extract_email_from_html html text = "N/A") := by
  refine ⟨fun a b h1 h2 hne => ?_, fun h1 b h2 => ?_, fun h1 h2 c h3 => ?_,
    fun h1 h2 h3 => ?_⟩
  · simp [extract_email_from_html, h1]
  · simp [extract_email_from_html, h1, h2]
  · simp [extract_email_from_html, h1, h2, h3]
  · simp [extract_email_from_html, h1, h2, h3]

theorem C1_witness :
    extract_email_from_html spanAndMailtoHtml "" = "z@w.com" ∧
    extract_email_from_html mailtoOnlyHtml "Contact Email"
      = "school.contact@education.gov.in" ∧
    extract_email_from_html plainHtml plainText = "principal@schoolname.edu.in" ∧
    extract_email_from_html noEmailHtml noEmailText = "N/A" := by
  have h1 := (C1_email_strategy_precedence spanAndMailtoHtml "").1 "z@w.com" "x@y.com"
    (by decide) (by decide) (by decide)
  have h2 := (C1_email_strategy_precedence mailtoOnlyHtml "Contact Email").2.1
    (by decide) "school.contact@education.gov.in" (by decide)
  have h3 := (C1_email_strategy_precedence plainHtml plainText).2.2.1
    (by decide) (by decide) "principal@schoolname.edu.in" (by decide)
  have h4 := (C1_email_strategy_precedence noEmailHtml noEmailText).2.2.2
    (by decide) (by decide) (by decide)
  exact ⟨h1.trans (by decide), h2.trans (by decide), h3.trans (by decide), h4⟩

/-- C6 counterexample: the claim says strategy 1 produces a value only when
the marker-class span sits inside an anchor whose target begins with the
mail-link scheme.  But the strategy-1 regex
(`<span[^>]*class="[^"]*ms-2[^"]*"[^>]*>([^<]+@[^<]+)</span>`) never looks
at any enclosing anchor: on markup containing a marker-class span but no
`mailto:` and no `<a` anywhere, strategy 1 still matches and extraction
returns its inner text instead of falling through. -/
theorem C6_counterexample :
    ¬ List.IsInfix ("mailto".toList) spanNoAnchorHtml.toList ∧
    ¬ List.IsInfix ("<a".toList) spanNoAnchorHtml.toList ∧
    email_span_match spanNoAnchorHtml = some "a@b.cd" ∧
    extract_email_from_html spanNoAnchorHtml "" = "a@b.cd" := by
  exact ⟨by decide, by decide, by decide, by decide⟩

/-- C6 (amended): strategy 1 matches whenever the marker-class span pattern
matches in the markup, whether or not the span is enclosed in a mail-link
anchor; whenever it matches, extraction returns its stripped inner text
and never falls through to the later strategies. -/
theorem C6_strategy1_ignores_enclosing_anchor (html text v : String)
    (h : email_span_match html = some v) :
    extract_email_from_html html text = pyStrip v := by
  simp [extract_email_from_html, h]

theorem C6_witness :
    extract_email_from_html spanNoAnchorHtml "other@text.example" = pyStrip "a@b.cd" :=
  C6_strategy1_ignores_enclosing_anchor spanNoAnchorHtml "other@text.example" "a@b.cd"
    (by decide)

/-- C9: the integer configuration keys consumed by the core have defaults —
`MAX_RETRIES` 3, `RETRY_DELAY` 5, `BACKUP_FREQUENCY` 100 — and for every
environment in which such a key is absent, or carries a value that does
not parse as an integer, configuration loading yields the default instead
of failing (`load_config_render` is a total function, so no environment
prevents a run from starting). -/
theorem C9_config_defaults (env : String → Option String) :
    ((env "MAX_RETRIES" = none → (load_config_render env).MAX_RETRIES = some 3) ∧
     (∀ v, env "MAX_RETRIES" = some v → pyInt v = none →
        (load_config_render env).MAX_RETRIES = some 3)) ∧
    ((env "RETRY_DELAY" = none → (load_config_render env).RETRY_DELAY = some 5) ∧
     (∀ v, env "RETRY_DELAY" = some v → pyInt v = none →
        (load_config_render env).RETRY_DELAY = some 5)) ∧
    ((env "BACKUP_FREQUENCY" = none →
        (load_config_render env).BACKUP_FREQUENCY = some 100) ∧
     (∀ v, env "BACKUP_FREQUENCY" = some v → pyInt v = none →
        (load_config_render env).BACKUP_FREQUENCY = some 100)) := by
  refine ⟨⟨fun h => ?_, fun v h1 h2 => ?_⟩, ⟨fun h => ?_, fun v h1 h2 => ?_⟩,
    ⟨fun h => ?_, fun v h1 h2 => ?_⟩⟩
  · simp [load_config_render, get_env_int, h]
  · simp [load_config_render, get_env_int, h1, h2]
  · simp [load_config_render, get_env_int, h]
  · simp [load_config_render, get_env_int, h1, h2]
  · simp [load_config_render, get_env_int, h]
  · simp [load_config_render, get_env_int, h1, h2]

theorem C9_witness :
    (load_config_render emptyEnv).MAX_RETRIES = some 3 ∧
    (load_config_render emptyEnv).RETRY_DELAY = some 5 ∧
    (load_config_render emptyEnv).BACKUP_FREQUENCY = some 100 ∧
    (load_config_render badIntEnv).MAX_RETRIES = some 3 ∧
    (load_config_render badIntEnv).RETRY_DELAY = some 5 ∧
    (load_config_render badIntEnv).BACKUP_FREQUENCY = some 100 := by
  have hE := C9_config_defaults emptyEnv
  have hB := C9_config_defaults badIntEnv
  exact ⟨hE.1.1 rfl, hE.2.1.1 rfl, hE.2.2.1 rfl,
    hB.1.2 "not-a-number" rfl (by decide),
    hB.2.1.2 "not-a-number" rfl (by decide),
    hB.2.2.2 "not-a-number" rfl (by decide)⟩

end CBSE
